import Mathlib

/-!
Verification development for the signed-authorization protocol of the
wallet-sweeper repository: canonical message construction
(`SecurityUtils.createMessageToSign`, `SignatureService.createMessageToSign`),
the validation pipeline (`SignatureService.verifySignature`) and the nonce
replay-prevention store (`isNonceUsed` / `consumeNonce` with its in-process
cache and 24-hour cleanup).

JavaScript dynamic values that flow through the pipeline are modelled by
`JSVal` (strings and rational numbers); an absent object field is `none`.
Machine time is modelled as milliseconds since the epoch (`Int`).  The two
external collaborators — base58 decoding and the Ed25519 primitive from
`tweetnacl` — are abstracted into a `CryptoEnv` record of functions; the
store-failure behaviour of the Redis client is modelled by two Booleans
(`readFails`, `writeFails`) choosing whether the read (`redis.get`) or the
write (`redis.setEx`) throws.
-/

/-- A JavaScript value as used by the signature records: either a string or
a (finite) number, modelled as a rational.  `NaN`/`Infinity` never arise in
the scenarios the claims quantify over. -/
inductive JSVal where
  | vStr : String → JSVal
  | vNum : ℚ → JSVal
deriving DecidableEq, Repr

/-- JavaScript truthiness on `JSVal`: the empty string and the number 0 are
falsy, everything else truthy. -/
def JSVal.truthy : JSVal → Bool
  | .vStr s => !(s == "")
  | .vNum q => !(q == 0)

/-- Decimal digits of the fractional part `r / d` (long division), up to
`fuel` digits. -/
def fracDigits : ℕ → ℕ → ℕ → List Char
  | _, _, 0 => []
  | r, d, Nat.succ fuel =>
    if r = 0 then []
    else
      let r10 := r * 10
      Char.ofNat (48 + (r10 / d) % 10) :: fracDigits (r10 % d) d fuel

/-- Decimal rendering of a rational, used to model JavaScript's
number-to-string conversion on the decimal-representable values the claims
use (e.g. `0.01` renders as `"0.01"`, integers render with no point). -/
def ratToString (q : ℚ) : String :=
  let sign := if q < 0 then "-" else ""
  let n := q.num.natAbs
  let d := q.den
  let intPart := toString (n / d)
  let rem := n % d
  if rem = 0 then sign ++ intPart
  else sign ++ intPart ++ "." ++ String.mk (fracDigits rem d 30)

/-- Template-literal interpolation of a `JSVal` (`${v}`). -/
def JSVal.toStr : JSVal → String
  | .vStr s => s
  | .vNum q => ratToString q

/-- Template-literal interpolation of a possibly-absent field:
`${undefined}` renders as `"undefined"`. -/
def interpOpt : Option JSVal → String
  | none => "undefined"
  | some v => v.toStr

/-- JavaScript `x || d`: the default replaces an absent or falsy value. -/
def orDefault (v : Option JSVal) (d : JSVal) : JSVal :=
  match v with
  | none => d
  | some x => if x.truthy then x else d

/-- The literal `0.01` (the `maxSlippage` default), in normalized form so
that concrete inputs evaluate inside the kernel. -/
def q001 : ℚ := ⟨1, 100, by norm_num, Nat.coprime_one_left _⟩

/-- The literal `0.1` (the slippage ceiling), in normalized form. -/
def q01 : ℚ := ⟨1, 10, by norm_num, Nat.coprime_one_left _⟩

/-- The authorization record (`signatureData`): a JavaScript object whose
fields may each be absent.  Field set and names follow the source. -/
structure SigData where
  nonce : Option JSVal
  timestamp : Option JSVal
  expiry : Option JSVal
  domain : Option JSVal
  version : Option JSVal
  source : Option JSVal
  destination : Option JSVal
  amount : Option JSVal
  token : Option JSVal
  memo : Option JSVal
  maxSlippage : Option JSVal
deriving DecidableEq, Repr

/-- The constant delimiter both encoders join on: the JS source writes
`.join('\\n')`, i.e. the two-character string backslash–`n`. -/
def messageDelim : String := "\\n"

namespace SecurityUtils

/-- Frontend (signer-side) canonical encoder, from
`src/frontend/js/security-utils.js` `createMessageToSign`: eleven
`key:value` lines joined by the delimiter, interpolating each field
directly (no defaults; an absent field interpolates as `undefined`). -/
def createMessageToSign (d : SigData) : String :=
  String.intercalate messageDelim [
    "nonce:" ++ interpOpt d.nonce,
    "timestamp:" ++ interpOpt d.timestamp,
    "expiry:" ++ interpOpt d.expiry,
    "domain:" ++ interpOpt d.domain,
    "version:" ++ interpOpt d.version,
    "source:" ++ interpOpt d.source,
    "destination:" ++ interpOpt d.destination,
    "amount:" ++ interpOpt d.amount,
    "token:" ++ interpOpt d.token,
    "memo:" ++ interpOpt d.memo,
    "maxSlippage:" ++ interpOpt d.maxSlippage
  ]

end SecurityUtils

namespace SignatureService

/-- Backend (verifier-side) canonical encoder, from
`src/unnamed/part_001` `createMessageToSign`: same eleven lines, but
`version`, `token`, `memo` and `maxSlippage` are run through `||`-defaults
(`'1.0'`, `'SOL'`, `''`, `0.01`) before interpolation. -/
def createMessageToSign (d : SigData) : String :=
  String.intercalate messageDelim [
    "nonce:" ++ interpOpt d.nonce,
    "timestamp:" ++ interpOpt d.timestamp,
    "expiry:" ++ interpOpt d.expiry,
    "domain:" ++ interpOpt d.domain,
    "version:" ++ (orDefault d.version (.vStr "1.0")).toStr,
    "source:" ++ interpOpt d.source,
    "destination:" ++ interpOpt d.destination,
    "amount:" ++ interpOpt d.amount,
    "token:" ++ (orDefault d.token (.vStr "SOL")).toStr,
    "memo:" ++ (orDefault d.memo (.vStr "")).toStr,
    "maxSlippage:" ++ (orDefault d.maxSlippage (.vNum q001)).toStr
  ]

end SignatureService

/-- Value of a leading run of decimal digits (JS `parseInt` digit loop). -/
def takeDigits : List Char → ℕ → ℕ
  | [], acc => acc
  | c :: cs, acc => if c.isDigit then takeDigits cs (acc * 10 + (c.toNat - 48)) else acc

/-- Leading digit run of a character list, `none` when the first character
is not a digit. -/
def digitsVal : List Char → Option ℕ
  | [] => none
  | c :: cs => if c.isDigit then some (takeDigits (c :: cs) 0) else none

/-- JS `parseInt` on a string: optional sign, then leading digits. -/
def parseIntStr (s : String) : Option ℤ :=
  match s.data with
  | '-' :: rest => (digitsVal rest).map (fun n => -(n : ℤ))
  | l => (digitsVal l).map (fun n => (n : ℤ))

/-- Truncation toward zero of a rational (what `parseInt` does to a number
via its decimal string). -/
def ratTrunc (q : ℚ) : ℤ :=
  if q < 0 then -((q.num.natAbs / q.den : ℕ) : ℤ) else ((q.num.natAbs / q.den : ℕ) : ℤ)

/-- JS `parseInt` on a field value; `none` models `NaN`. -/
def toIntJS : Option JSVal → Option ℤ
  | none => none
  | some (.vNum q) => some (ratTrunc q)
  | some (.vStr s) => parseIntStr s

/-- Fractional-digit value of a character run at a given place value. -/
def fracVal : List Char → ℚ → ℚ
  | [], _ => 0
  | c :: cs, p => if c.isDigit then ((c.toNat - 48 : ℕ) : ℚ) * p + fracVal cs (p / 10) else 0

/-- JS `parseFloat` on a string: optional sign, digits, optional fraction. -/
def parseFloatStr (s : String) : Option ℚ :=
  let core : List Char → Option ℚ := fun l =>
    match digitsVal l with
    | none =>
      match l with
      | '.' :: rest => (digitsVal rest).map (fun _ => fracVal rest (1/10))
      | _ => none
    | some n =>
      let rest := l.dropWhile Char.isDigit
      match rest with
      | '.' :: frs => some ((n : ℚ) + fracVal frs (1/10))
      | _ => some (n : ℚ)
  match s.data with
  | '-' :: rest => (core rest).map (fun q => -q)
  | l => core l

/-- JS `parseFloat` on a field value; `none` models `NaN`. -/
def parseFloatJS : Option JSVal → Option ℚ
  | none => none
  | some (.vNum q) => some q
  | some (.vStr s) => parseFloatStr s

/-- Result of one validation step: the source's `{valid: true}` or
`{valid: false, error}` objects. -/
inductive VResult where
  | ok : VResult
  | err : String → VResult
deriving DecidableEq, Repr

/-- The in-process nonce cache (`this.nonceCache : Map`), entries
`nonce ↦ consumedAt` in milliseconds. -/
abbrev Store := List (String × ℤ)

/-- External collaborators of the verifier: `bs58.decode` (returning the
decoded bytes, `none` when it throws) and `nacl.sign.detached.verify`
applied to the canonical message string and the decoded byte lists. -/
structure CryptoEnv where
  bs58decode : String → Option (List ℕ)
  naclVerify : String → List ℕ → List ℕ → Bool

namespace SignatureService

/-- Constant `MAX_AMOUNT_SOL` from the source. -/
def MAX_AMOUNT_SOL : ℚ := 100

/-- Constant `SUPPORTED_DOMAINS`, the default from the source constructor. -/
def SUPPORTED_DOMAINS : List String := ["localhost:3000"]

/-- Step 1 of the pipeline (`validateInputs`): the signature and public
key must be non-empty strings, and the seven required fields must be
present, checked in the source's order.  (The model always passes a
record object, so the `typeof signatureData` clause is vacuous.) -/
def validateInputs (d : SigData) (signature publicKey : String) : VResult :=
  if signature == "" then .err "Invalid signature format"
  else if publicKey == "" then .err "Invalid public key format"
  else if d.nonce = none then .err "Missing required field: nonce"
  else if d.timestamp = none then .err "Missing required field: timestamp"
  else if d.expiry = none then .err "Missing required field: expiry"
  else if d.domain = none then .err "Missing required field: domain"
  else if d.source = none then .err "Missing required field: source"
  else if d.destination = none then .err "Missing required field: destination"
  else if d.amount = none then .err "Missing required field: amount"
  else .ok

/-- Step 2 (`validateTimestamp`): reject a timestamp more than 5 minutes
in the future, an expired record (`now > expiry`), or a validity window
over 24 hours.  A `NaN` value (absent/unparseable field) makes each
comparison false, as in JS. -/
def validateTimestamp (d : SigData) (now : ℤ) : VResult :=
  let ts := toIntJS d.timestamp
  let ex := toIntJS d.expiry
  if (match ts with | some t => decide (t > now + 300000) | none => false)
  then .err "Signature timestamp is too far in the future"
  else if (match ex with | some e => decide (now > e) | none => false)
  then .err "Signature has expired"
  else if (match ts, ex with
           | some t, some e => decide (e - t > 86400000)
           | _, _ => false)
  then .err "Signature validity window is too long"
  else .ok

/-- Base64url alphabet test for the nonce regex `^[A-Za-z0-9_-]+$`. -/
def isB64UrlChar (c : Char) : Bool := c.isAlphanum || c == '_' || c == '-'

/-- Source `isNonceUsed`: a Redis `get` (here a cache lookup); when the store
read throws, the error is caught and the nonce is reported unused. -/
def isNonceUsed (store : Store) (n : String) (readFails : Bool) : Bool :=
  if readFails then false else store.any (fun e => e.1 == n)

/-- Source `cleanupNonceCache`: drop entries older than 24 hours. -/
def cleanupNonceCache (store : Store) (now : ℤ) : Store :=
  store.filter (fun e => decide (now - e.2 ≤ 86400000))

/-- Source `consumeNonce`: record the nonce at the current time, then clean up;
`none` models the store write throwing (which the caller treats as a
verification failure). -/
def consumeNonce (store : Store) (n : String) (now : ℤ) (writeFails : Bool) : Option Store :=
  if writeFails then none
  else some (cleanupNonceCache ((n, now) :: store.filter (fun e => !(e.1 == n))) now)

/-- Step 3 (`validateNonce`): the nonce must be a truthy string over the
base64url alphabet, and must not already be in the store. -/
def validateNonce (nonce : Option JSVal) (store : Store) (readFails : Bool) : VResult :=
  match nonce with
  | some (.vStr s) =>
    if s == "" then .err "Invalid nonce format"
    else if !(s.data.all isB64UrlChar) then .err "Invalid nonce format"
    else if isNonceUsed store s readFails
    then .err "Nonce has already been used (replay attack detected)"
    else .ok
  | _ => .err "Invalid nonce format"

/-- Step 4 (`validateDomain`): the domain must be a truthy string in the
allow-list. -/
def validateDomain (domain : Option JSVal) : VResult :=
  match domain with
  | some (.vStr s) =>
    if s == "" then .err "Invalid domain format"
    else if SUPPORTED_DOMAINS.contains s then .ok
    else .err ("Unsupported domain: " ++ s)
  | _ => .err "Invalid domain format"

/-- Step 5 (`verifyCryptographicSignature`): rebuild the canonical
message, base58-decode signature and public key, check the decoded
lengths (64 and 32 bytes) and run the Ed25519 verification primitive. -/
def verifyCryptographicSignature (env : CryptoEnv) (d : SigData)
    (signature publicKey : String) : VResult :=
  match env.bs58decode signature, env.bs58decode publicKey with
  | some sb, some pb =>
    if sb.length ≠ 64 then .err "Invalid signature length"
    else if pb.length ≠ 32 then .err "Invalid public key length"
    else if env.naclVerify (createMessageToSign d) sb pb then .ok
    else .err "Cryptographic signature verification failed"
  | _, _ => .err "Signature verification error: decode failed"

/-- Source `isValidSolanaAddress`: the value base58-decodes to exactly 32 bytes. -/
def isValidSolanaAddress (env : CryptoEnv) (v : Option JSVal) : Bool :=
  match v with
  | some (.vStr s) =>
    match env.bs58decode s with
    | some bytes => bytes.length == 32
    | none => false
  | _ => false

/-- Step 6 (`performSecurityChecks`): SOL amount ceiling, address format,
self-transfer, positive amount, slippage range, and the version gate
(`version && version !== '1.0'`), in the source's order. -/
def performSecurityChecks (env : CryptoEnv) (d : SigData) : VResult :=
  if d.token == some (.vStr "SOL")
     && (match parseFloatJS d.amount with
         | some a => decide (a > MAX_AMOUNT_SOL)
         | none => false)
  then .err "Amount exceeds maximum limit of 100 SOL"
  else if !(isValidSolanaAddress env d.source && isValidSolanaAddress env d.destination)
  then .err "Invalid wallet address format"
  else if d.source == d.destination then .err "Cannot transfer to same wallet"
  else if (match parseFloatJS d.amount with
           | some a => decide (a ≤ 0)
           | none => true)
  then .err "Invalid transfer amount"
  else if (match parseFloatJS d.maxSlippage with
           | some sl => decide (sl < 0) || decide (sl > q01)
           | none => true)
  then .err "Invalid slippage value (must be between 0 and 10%)"
  else if ((match d.version with
            | some v => v.truthy && !(v == .vStr "1.0")
            | none => false) : Bool)
  then .err "Unsupported signature version"
  else .ok

/-- The verifier (`verifySignature`): the pipeline in the source's order
— inputs, timestamp, nonce replay-check, domain, cryptographic signature,
business checks — failing fast, then consuming the nonce on success.  A
store-write failure is caught by the outer handler and wrapped. -/
def verifySignature (env : CryptoEnv) (d : SigData) (signature publicKey : String)
    (store : Store) (now : ℤ) (readFails writeFails : Bool) : VResult × Store :=
  match validateInputs d signature publicKey with
  | .err e => (.err e, store)
  | .ok =>
    match validateTimestamp d now with
    | .err e => (.err e, store)
    | .ok =>
      match validateNonce d.nonce store readFails with
      | .err e => (.err e, store)
      | .ok =>
        match validateDomain d.domain with
        | .err e => (.err e, store)
        | .ok =>
          match verifyCryptographicSignature env d signature publicKey with
          | .err e => (.err e, store)
          | .ok =>
            match performSecurityChecks env d with
            | .err e => (.err e, store)
            | .ok =>
              match d.nonce with
              | some (.vStr n) =>
                match consumeNonce store n now writeFails with
                | none => (.err "Signature verification failed: Failed to consume nonce - cannot prevent replay attacks", store)
                | some st => (.ok, st)
              | _ => (.err "Signature verification failed: invalid nonce", store)

end SignatureService

/-- The spec's canonical field list: eleven `key:value` entries in the
order `nonce, timestamp, expiry, domain, version, source, destination,
amount, token, memo, maxSlippage`, with the defaults the spec prescribes
substituted for optional fields.  Written from the spec's words, for
comparison with the implementation encoder. -/
def canonicalLinesSpec (d : SigData) : List String :=
  [ "nonce:" ++ interpOpt d.nonce,
    "timestamp:" ++ interpOpt d.timestamp,
    "expiry:" ++ interpOpt d.expiry,
    "domain:" ++ interpOpt d.domain,
    "version:" ++ (orDefault d.version (.vStr "1.0")).toStr,
    "source:" ++ interpOpt d.source,
    "destination:" ++ interpOpt d.destination,
    "amount:" ++ interpOpt d.amount,
    "token:" ++ (orDefault d.token (.vStr "SOL")).toStr,
    "memo:" ++ (orDefault d.memo (.vStr "")).toStr,
    "maxSlippage:" ++ (orDefault d.maxSlippage (.vNum q001)).toStr ]

/-- Test fixture: a crypto environment in which every base58 string
decodes (the designated signature string to 64 bytes, everything else to
32) and the Ed25519 primitive accepts. -/
def testEnv : CryptoEnv where
  bs58decode s := if s == "SIGB58" then some (List.replicate 64 0) else some (List.replicate 32 0)
  naclVerify _ _ _ := true

/-- Test fixture: a fully-populated valid record.  Its timestamp sits at
the far edge of the clock-skew tolerance seen from time 0 and its window
is exactly the 24-hour maximum. -/
def recA : SigData where
  nonce := some (.vStr "NONCEA")
  timestamp := some (.vNum 300000)
  expiry := some (.vNum 86700000)
  domain := some (.vStr "localhost:3000")
  version := some (.vStr "1.0")
  source := some (.vStr "SRC")
  destination := some (.vStr "DST")
  amount := some (.vNum 5)
  token := some (.vStr "SOL")
  memo := some (.vStr "")
  maxSlippage := some (.vNum q001)

/-- Test fixture: a second valid record with a fresh nonce, created near
the 24-hour mark. -/
def recB : SigData :=
  { recA with nonce := some (.vStr "NONCEB"),
              timestamp := some (.vNum 86400001),
              expiry := some (.vNum 87300001) }

/-- Test fixture: `recA` with the version field absent. -/
def recNoVersion : SigData := { recA with version := none }

/-- Test fixture: `recA` with `maxSlippage` zero (a legal value, but a
falsy one). -/
def recSlipZero : SigData := { recA with maxSlippage := some (.vNum 0) }

/-- Test fixture: `recA` with the memo field absent. -/
def recMemoAbsent : SigData := { recA with memo := none }

/-- Fail-fast composition of an ordered check list: the verdict of the
first failing check, `ok` when all pass. -/
def firstFailure : List VResult → VResult
  | [] => .ok
  | .ok :: rest => firstFailure rest
  | .err e :: _ => .err e

/-- The pipeline order the claim states — shape, version, time window,
domain, nonce claim, cryptographic signature, business rules — assembled
from the claim's words (its step 2 is a stand-alone version gate
requiring the single supported value) for comparison with the
implementation's order. -/
def claimOrderVerdict (env : CryptoEnv) (d : SigData) (sig pk : String)
    (store : Store) (now : ℤ) (rf : Bool) : VResult :=
  firstFailure [
    SignatureService.validateInputs d sig pk,
    (if d.version == some (.vStr "1.0") then .ok else .err "Unsupported signature version"),
    SignatureService.validateTimestamp d now,
    SignatureService.validateDomain d.domain,
    SignatureService.validateNonce d.nonce store rf,
    SignatureService.verifyCryptographicSignature env d sig pk,
    SignatureService.performSecurityChecks env d ]

/-- One verify request: the record, transport-encoded signature and
public key, the wall-clock instant of the call, and the two
store-failure flags. -/
structure VerifyCall where
  data : SigData
  signature : String
  publicKey : String
  now : ℤ
  readFails : Bool
  writeFails : Bool
deriving DecidableEq, Repr

/-- Execute a sequence of verify calls against the shared nonce store,
threading the store through and collecting the verdicts. -/
def runCalls (env : CryptoEnv) : List VerifyCall → Store → List VResult × Store
  | [], store => ([], store)
  | c :: cs, store =>
    let r := SignatureService.verifySignature env c.data c.signature c.publicKey
      store c.now c.readFails c.writeFails
    let rest := runCalls env cs r.2
    (r.1 :: rest.1, rest.2)

/-- Test fixture: the first verification of `recA`, at time 0. -/
def callA1 : VerifyCall :=
  { data := recA, signature := "SIGB58", publicKey := "PK",
    now := 0, readFails := false, writeFails := false }

/-- Test fixture: a verification of the unrelated `recB` one millisecond
past `recA`'s 24-hour nonce retention; its consume step runs the cache
cleanup, which evicts `recA`'s nonce. -/
def callB : VerifyCall :=
  { data := recB, signature := "SIGB58", publicKey := "PK",
    now := 86400001, readFails := false, writeFails := false }

/-- Test fixture: a replay of `recA` — the identical record, signature
and public key — at the same instant as `callB`, still inside `recA`'s
validity window thanks to its future-skewed timestamp. -/
def callA2 : VerifyCall :=
  { data := recA, signature := "SIGB58", publicKey := "PK",
    now := 86400001, readFails := false, writeFails := false }

/-- Execution state of one in-flight verification: not yet at its store
read, past its store read (holding the value the read returned), or done
with a verdict.  The two `await` points of the source — the nonce read
(`redis.get`) and everything after it — delimit the interleaving: all
checks before the read are synchronous with it, and the continuation
after the read (domain, crypto, business checks and the consume write)
runs as the second step. -/
inductive ProcState where
  | start : ProcState
  | readDone : Bool → ProcState
  | finished : VResult → ProcState
deriving DecidableEq, Repr

/-- One scheduler step of a single verification: from `start`, run the
pre-read checks and the store read; from `readDone`, run the rest of the
pipeline and, on success, the consume write.  The check functions are
the pipeline's own; the format-only part of the nonce check is its
evaluation on the empty store. -/
def procStep (env : CryptoEnv) (c : VerifyCall) : ProcState → Store → ProcState × Store
  | .start, store =>
    match SignatureService.validateInputs c.data c.signature c.publicKey with
    | .err e => (.finished (.err e), store)
    | .ok =>
      match SignatureService.validateTimestamp c.data c.now with
      | .err e => (.finished (.err e), store)
      | .ok =>
        match SignatureService.validateNonce c.data.nonce [] false with
        | .err e => (.finished (.err e), store)
        | .ok =>
          match c.data.nonce with
          | some (.vStr n) =>
            (.readDone (SignatureService.isNonceUsed store n c.readFails), store)
          | _ => (.finished (.err "Invalid nonce format"), store)
  | .readDone used, store =>
    if used then
      (.finished (.err "Nonce has already been used (replay attack detected)"), store)
    else
      match SignatureService.validateDomain c.data.domain with
      | .err e => (.finished (.err e), store)
      | .ok =>
        match SignatureService.verifyCryptographicSignature env c.data c.signature c.publicKey with
        | .err e => (.finished (.err e), store)
        | .ok =>
          match SignatureService.performSecurityChecks env c.data with
          | .err e => (.finished (.err e), store)
          | .ok =>
            match c.data.nonce with
            | some (.vStr n) =>
              match SignatureService.consumeNonce store n c.now c.writeFails with
              | none => (.finished (.err "Signature verification failed: Failed to consume nonce - cannot prevent replay attacks"), store)
              | some st => (.finished .ok, st)
            | _ => (.finished (.err "Signature verification failed: invalid nonce"), store)
  | .finished r, store => (.finished r, store)

/-- Run one verification alone to completion through `procStep`. -/
def runProc (env : CryptoEnv) (c : VerifyCall) (store : Store) : VResult × Store :=
  match procStep env c .start store with
  | (.finished r, st) => (r, st)
  | (ps, st) =>
    match procStep env c ps st with
    | (.finished r, st2) => (r, st2)
    | (_, st2) => (.err "stuck", st2)

/-- Joint state of two concurrent verifications over the shared store. -/
structure TwoProcs where
  store : Store
  p1 : ProcState
  p2 : ProcState
deriving DecidableEq, Repr

/-- One scheduler choice: advance the first or the second verification. -/
def twoStep (env : CryptoEnv) (c1 c2 : VerifyCall) (s : TwoProcs) (runFirst : Bool) : TwoProcs :=
  if runFirst then
    let r := procStep env c1 s.p1 s.store
    { s with p1 := r.1, store := r.2 }
  else
    let r := procStep env c2 s.p2 s.store
    { s with p2 := r.1, store := r.2 }

/-- Run a schedule (a list of scheduler choices) over the joint state. -/
def runSchedule (env : CryptoEnv) (c1 c2 : VerifyCall) : List Bool → TwoProcs → TwoProcs
  | [], s => s
  | b :: bs, s => runSchedule env c1 c2 bs (twoStep env c1 c2 s b)

/-- Sanity: the normalized constant is the rational one hundredth. -/
theorem q001_eq : q001 = 1/100 := by
  rw [q001]; norm_num [Rat.mk'_eq_divInt, Rat.divInt_eq_div]

/-- Sanity: the normalized constant is the rational one tenth. -/
theorem q01_eq : q01 = 1/10 := by
  rw [q01]; norm_num [Rat.mk'_eq_divInt, Rat.divInt_eq_div]

/-- Casting an integer into the rationals and truncating gives it back. -/
theorem ratTrunc_intCast (t : ℤ) : ratTrunc (t : ℚ) = t := by
  unfold ratTrunc
  rw [Rat.num_intCast, Rat.den_intCast]
  by_cases h : (t : ℚ) < 0
  · have ht : t < 0 := by exact_mod_cast h
    simp only [if_pos h, Nat.div_one]
    omega
  · have ht : ¬ t < 0 := fun hc => h (by exact_mod_cast hc)
    simp only [if_neg h, Nat.div_one]
    omega

/-- C5: the time-window check accepts exactly when
`timestamp ≤ now + 5min`, `now ≤ expiry` and
`expiry − timestamp ≤ 24h`; in particular `now = expiry` is accepted and
`now = expiry + 1` is rejected with the expired error, and a window of
exactly 24 hours passes while one unit over fails. -/
theorem C5_time_window_iff (d : SigData) (ts ex now : ℤ)
    (hts : d.timestamp = some (.vNum (ts : ℚ)))
    (hex : d.expiry = some (.vNum (ex : ℚ))) :
    (SignatureService.validateTimestamp d now = .ok ↔
      ts ≤ now + 300000 ∧ now ≤ ex ∧ ex - ts ≤ 86400000) ∧
    (ts ≤ now + 300000 → now = ex + 1 →
      SignatureService.validateTimestamp d now = .err "Signature has expired") := by
  unfold SignatureService.validateTimestamp
  rw [hts, hex]
  simp only [toIntJS, ratTrunc_intCast]
  constructor
  · split_ifs with h1 h2 h3 <;> simp_all <;> omega
  · intro h1 h2
    split_ifs with g1 g2 <;> simp_all <;> omega

/-- Witness for C5: the fixture record is accepted at time 0, rejected as
expired one millisecond after its expiry. -/
theorem C5_time_window_witness :
    SignatureService.validateTimestamp recA 0 = .ok ∧
    SignatureService.validateTimestamp recA 86700001 = .err "Signature has expired" := by
  constructor
  · exact (C5_time_window_iff recA 300000 86700000 0 (by norm_num [recA])
      (by norm_num [recA])).1.mpr (by norm_num)
  · exact (C5_time_window_iff recA 300000 86700000 86700001 (by norm_num [recA])
      (by norm_num [recA])).2 (by norm_num) (by norm_num)

/-- Rendering a present string memo through the backend default equals
rendering it directly: the empty string is falsy but its default is the
empty string again. -/
theorem orDefault_memo_str (ms : String) :
    (orDefault (some (.vStr ms)) (.vStr "")).toStr = ms := by
  by_cases h : ms = "" <;> simp [orDefault, JSVal.truthy, JSVal.toStr, h]

/-- C4 (amended): the signer-side and verifier-side canonical encoders
produce identical bytes whenever the optional fields are populated —
`version`, `token` and `maxSlippage` present and truthy, `memo` present
as a string.  (As stated, the claim fails for absent optional fields:
see the counterexample.) -/
theorem C4_encoders_agree_on_populated (d : SigData) (v tok sl : JSVal) (ms : String)
    (hv : d.version = some v) (hvt : v.truthy = true)
    (ht : d.token = some tok) (htt : tok.truthy = true)
    (hm : d.memo = some (.vStr ms))
    (hs : d.maxSlippage = some sl) (hst : sl.truthy = true) :
    SecurityUtils.createMessageToSign d = SignatureService.createMessageToSign d := by
  have h1 : orDefault (some v) (.vStr "1.0") = v := by simp [orDefault, hvt]
  have h2 : orDefault (some tok) (.vStr "SOL") = tok := by simp [orDefault, htt]
  have h3 : orDefault (some sl) (.vNum q001) = sl := by simp [orDefault, hst]
  unfold SecurityUtils.createMessageToSign SignatureService.createMessageToSign
  rw [hv, ht, hm, hs, h1, h2, h3, orDefault_memo_str]
  simp [interpOpt, JSVal.toStr]

/-- Witness for C4 (amended): the two encoders agree on the populated
fixture record. -/
theorem C4_encoders_agree_witness :
    SecurityUtils.createMessageToSign recA = SignatureService.createMessageToSign recA :=
  C4_encoders_agree_on_populated recA (.vStr "1.0") (.vStr "SOL") (.vNum q001) ""
    (by rfl) (by decide) (by rfl) (by decide) (by rfl) (by rfl) (by decide)

set_option maxRecDepth 100000 in
/-- Counterexample to C4 as stated: on a record whose `version` field is
absent the signer-side encoder emits `version:undefined` while the
verifier-side encoder substitutes the default and emits `version:1.0`,
so the outputs are not byte-identical. -/
theorem C4_absent_version_mismatch_counterexample :
    recNoVersion.version = none ∧
    SecurityUtils.createMessageToSign recNoVersion ≠
      SignatureService.createMessageToSign recNoVersion := by
  exact ⟨rfl, by decide⟩

/-- C9: the verifier-side canonical encoder emits exactly the eleven
fields `nonce, timestamp, expiry, domain, version, source, destination,
amount, token, memo, maxSlippage`, one `key:value` entry per field in
that order, joined by the constant delimiter; and it is deterministic —
field-for-field equal records encode to identical bytes. -/
theorem C9_canonical_order_and_determinism :
    (∀ d : SigData,
      SignatureService.createMessageToSign d
        = String.intercalate messageDelim (canonicalLinesSpec d) ∧
      (canonicalLinesSpec d).length = 11) ∧
    (∀ d₁ d₂ : SigData, d₁.nonce = d₂.nonce → d₁.timestamp = d₂.timestamp →
      d₁.expiry = d₂.expiry → d₁.domain = d₂.domain → d₁.version = d₂.version →
      d₁.source = d₂.source → d₁.destination = d₂.destination →
      d₁.amount = d₂.amount → d₁.token = d₂.token → d₁.memo = d₂.memo →
      d₁.maxSlippage = d₂.maxSlippage →
      SignatureService.createMessageToSign d₁ = SignatureService.createMessageToSign d₂) := by
  constructor
  · exact fun d => ⟨rfl, rfl⟩
  · intro d₁ d₂ h₁ h₂ h₃ h₄ h₅ h₆ h₇ h₈ h₉ h₁₀ h₁₁
    have hd : d₁ = d₂ := by cases d₁; cases d₂; simp_all
    rw [hd]

/-- Witness for C9: the fixture record's encoding matches the
spec-ordered line list, and determinism applied at the fixture. -/
theorem C9_canonical_order_witness :
    SignatureService.createMessageToSign recA
        = String.intercalate messageDelim (canonicalLinesSpec recA) ∧
    SignatureService.createMessageToSign recA = SignatureService.createMessageToSign recA :=
  ⟨(C9_canonical_order_and_determinism.1 recA).1,
   C9_canonical_order_and_determinism.2 recA recA rfl rfl rfl rfl rfl rfl rfl rfl rfl rfl rfl⟩

set_option maxRecDepth 100000 in
/-- C10: the verifier-side canonical encoder is not injective on legal
records — `maxSlippage = 0` and `maxSlippage = 0.01` (both in the allowed
range, both passing the business checks) encode byte-identically, as do
an absent memo and an empty-string memo; consequently the cryptographic
check accepts a signature for one such record exactly when it accepts it
for the other, in every crypto environment. -/
theorem C10_encoder_not_injective :
    recSlipZero ≠ recA ∧
    SignatureService.createMessageToSign recSlipZero = SignatureService.createMessageToSign recA ∧
    recMemoAbsent ≠ recA ∧
    SignatureService.createMessageToSign recMemoAbsent = SignatureService.createMessageToSign recA ∧
    SignatureService.performSecurityChecks testEnv recSlipZero = .ok ∧
    SignatureService.performSecurityChecks testEnv recA = .ok ∧
    (∀ env sig pk, SignatureService.verifyCryptographicSignature env recSlipZero sig pk
        = SignatureService.verifyCryptographicSignature env recA sig pk) := by
  refine ⟨by decide, by decide, by decide, by decide, by decide, by decide, ?_⟩
  intro env sig pk
  unfold SignatureService.verifyCryptographicSignature
  rw [show SignatureService.createMessageToSign recSlipZero
        = SignatureService.createMessageToSign recA from by decide]

/-- C8 (amended): with the other business checks passing, the
unsupported-version rejection fires exactly for a version field that is
present, truthy and different from the string `1.0`; an absent (or
falsy) version field is accepted, because the version gate is the JS
test `version && version !== '1.0'`. -/
theorem C8_version_gate_amended (env : CryptoEnv) (d : SigData) (a sl : ℚ)
    (hsrc : SignatureService.isValidSolanaAddress env d.source = true)
    (hdst : SignatureService.isValidSolanaAddress env d.destination = true)
    (hne : d.source ≠ d.destination)
    (ha : parseFloatJS d.amount = some a) (ha0 : 0 < a) (ha1 : a ≤ 100)
    (hsl : parseFloatJS d.maxSlippage = some sl) (hsl0 : 0 ≤ sl) (hsl1 : sl ≤ q01) :
    (SignatureService.performSecurityChecks env d = .ok ↔
      (d.version = none ∨ ∃ v, d.version = some v ∧ (v.truthy = false ∨ v = .vStr "1.0"))) ∧
    (SignatureService.performSecurityChecks env d = .err "Unsupported signature version" ↔
      (∃ v, d.version = some v ∧ v.truthy = true ∧ v ≠ .vStr "1.0")) := by
  have g1 : decide (a > SignatureService.MAX_AMOUNT_SOL) = false :=
    decide_eq_false (not_lt.mpr (by simpa [SignatureService.MAX_AMOUNT_SOL] using ha1))
  have g4 : decide (a ≤ 0) = false := decide_eq_false (not_le.mpr ha0)
  have g5a : decide (sl < 0) = false := decide_eq_false (not_lt.mpr hsl0)
  have g5b : decide (sl > q01) = false := decide_eq_false (not_lt.mpr hsl1)
  have g3 : (d.source == d.destination) = false := by
    simp only [beq_eq_false_iff_ne, ne_eq]; exact hne
  unfold SignatureService.performSecurityChecks
  rw [ha, hsl]
  simp only [g1, g4, g5a, g5b, hsrc, hdst, g3, Bool.and_false, Bool.and_true,
    Bool.false_or, Bool.or_false, Bool.not_true, if_false, Bool.false_eq_true,
    if_true, Bool.true_and]
  cases hv : d.version with
  | none => simp
  | some v =>
    by_cases hvt : v.truthy = true
    · by_cases hv10 : v = .vStr "1.0"
      · simp [hvt, hv10]
      · have : (v == JSVal.vStr "1.0") = false := by
          simp only [beq_eq_false_iff_ne, ne_eq]; exact hv10
        simp [hvt, this, hv10]
    · simp only [Bool.not_eq_true] at hvt
      simp [hvt]

/-- Witness for C8 (amended): the version gate accepts the fixture with
an absent version and rejects the fixture with version `2.0`. -/
theorem C8_version_gate_witness :
    SignatureService.performSecurityChecks testEnv recNoVersion = .ok :=
  (C8_version_gate_amended testEnv recNoVersion 5 q001
    (by decide) (by decide) (by decide) rfl (by norm_num) (by norm_num)
    rfl (by decide) (by decide)).1.mpr (Or.inl rfl)

set_option maxRecDepth 100000 in
/-- Counterexample to C8 as stated: a record with no version field at all
passes the whole pipeline and is accepted, while the claim requires every
record whose version differs from `1.0` — absent versions included — to
be rejected. -/
theorem C8_absent_version_accepted_counterexample :
    recNoVersion.version = none ∧
    SignatureService.verifySignature testEnv recNoVersion "SIGB58" "PK" [] 0 false false
      = (.ok, [("NONCEA", 0)]) := by
  exact ⟨rfl, by decide⟩

/-- With a failing store read the nonce check behaves exactly as on an
empty store: the caught error is reported as "nonce unused". -/
theorem validateNonce_readFails (v : Option JSVal) (store : Store) :
    SignatureService.validateNonce v store true = SignatureService.validateNonce v [] false := by
  cases v with
  | none => rfl
  | some x => cases x <;> rfl

/-- The just-consumed nonce survives the cleanup pass (its age is 0). -/
theorem mem_cleanup_insert (store : Store) (n : String) (now : ℤ) :
    (n, now) ∈ SignatureService.cleanupNonceCache
      ((n, now) :: store.filter (fun e => !(e.1 == n))) now := by
  simp [SignatureService.cleanupNonceCache, List.mem_filter]

/-- C6 (amended): a failing store write makes `verify` fail closed — the
verdict is Invalid and the store is untouched — but a failing store read
is swallowed: the verdict is computed as if the store were empty, so a
replay can be accepted while the store cannot answer (see the
counterexample). -/
theorem C6_store_failure_behaviour (env : CryptoEnv) (d : SigData) (sig pk : String)
    (store : Store) (now : ℤ) (rf wf : Bool) :
    ((SignatureService.verifySignature env d sig pk store now rf true).1 ≠ .ok ∧
     (SignatureService.verifySignature env d sig pk store now rf true).2 = store) ∧
    ((SignatureService.verifySignature env d sig pk store now true wf).1
        = (SignatureService.verifySignature env d sig pk [] now false wf).1) := by
  constructor
  · unfold SignatureService.verifySignature
    cases h1 : SignatureService.validateInputs d sig pk with
    | err e => simp
    | ok =>
    cases h2 : SignatureService.validateTimestamp d now with
    | err e => simp
    | ok =>
    cases h3 : SignatureService.validateNonce d.nonce store rf with
    | err e => simp
    | ok =>
    cases h4 : SignatureService.validateDomain d.domain with
    | err e => simp
    | ok =>
    cases h5 : SignatureService.verifyCryptographicSignature env d sig pk with
    | err e => simp
    | ok =>
    cases h6 : SignatureService.performSecurityChecks env d with
    | err e => simp
    | ok =>
    cases hn : d.nonce with
    | none => simp
    | some v =>
      cases v with
      | vNum q => simp
      | vStr n => simp [SignatureService.consumeNonce]
  · unfold SignatureService.verifySignature
    rw [validateNonce_readFails]
    cases h1 : SignatureService.validateInputs d sig pk with
    | err e => rfl
    | ok =>
    cases h2 : SignatureService.validateTimestamp d now with
    | err e => rfl
    | ok =>
    cases h3 : SignatureService.validateNonce d.nonce [] false with
    | err e => rfl
    | ok =>
    cases h4 : SignatureService.validateDomain d.domain with
    | err e => rfl
    | ok =>
    cases h5 : SignatureService.verifyCryptographicSignature env d sig pk with
    | err e => rfl
    | ok =>
    cases h6 : SignatureService.performSecurityChecks env d with
    | err e => rfl
    | ok =>
    cases hn : d.nonce with
    | none => rfl
    | some v =>
      cases v with
      | vNum q => rfl
      | vStr n => cases wf <;> simp [SignatureService.consumeNonce]

/-- Witness for C6 (amended): at a concrete input, a failing store write
yields an Invalid verdict with the store untouched, and with a failing
store read the verdict equals the empty-store verdict. -/
theorem C6_store_failure_witness :
    (SignatureService.verifySignature testEnv recA "SIGB58" "PK" [("NONCEA", 0)] 300000 false true).1
      ≠ .ok ∧
    (SignatureService.verifySignature testEnv recA "SIGB58" "PK" [("NONCEA", 0)] 300000 false true).2
      = [("NONCEA", 0)] ∧
    (SignatureService.verifySignature testEnv recA "SIGB58" "PK" [("NONCEA", 0)] 300000 true false).1
      = (SignatureService.verifySignature testEnv recA "SIGB58" "PK" [] 300000 false false).1 := by
  refine ⟨(C6_store_failure_behaviour testEnv recA "SIGB58" "PK" [("NONCEA", 0)] 300000 false true).1.1,
          (C6_store_failure_behaviour testEnv recA "SIGB58" "PK" [("NONCEA", 0)] 300000 false true).1.2,
          (C6_store_failure_behaviour testEnv recA "SIGB58" "PK" [("NONCEA", 0)] 300000 true false).2⟩

set_option maxRecDepth 100000 in
/-- Counterexample to C6 as stated: while the store cannot answer the
replay check (`readFails`), a record whose nonce is already recorded as
consumed is nevertheless accepted — the error in `isNonceUsed` is caught
and the nonce reported unused, so `verify` proceeds without replay
protection instead of failing closed. -/
theorem C6_replay_check_fail_open_counterexample :
    SignatureService.isNonceUsed [("NONCEA", 0)] "NONCEA" false = true ∧
    SignatureService.verifySignature testEnv recA "SIGB58" "PK" [("NONCEA", 0)] 300000 true false
      = (.ok, [("NONCEA", 300000)]) := by
  exact ⟨by decide, by decide⟩

/-- C7: the verdict is atomic with respect to the nonce store — whenever
`verify` returns Invalid, for any reason, the store is left exactly as it
was and no nonce is consumed; whenever it returns Valid, the record's
nonce has been recorded as consumed at the verification time. -/
theorem C7_invalid_leaves_store_unchanged (env : CryptoEnv) (d : SigData)
    (sig pk : String) (store : Store) (now : ℤ) (rf wf : Bool) :
    ((SignatureService.verifySignature env d sig pk store now rf wf).1 ≠ .ok →
      (SignatureService.verifySignature env d sig pk store now rf wf).2 = store) ∧
    ((SignatureService.verifySignature env d sig pk store now rf wf).1 = .ok →
      ∃ n, d.nonce = some (.vStr n) ∧
        (n, now) ∈ (SignatureService.verifySignature env d sig pk store now rf wf).2) := by
  unfold SignatureService.verifySignature
  cases h1 : SignatureService.validateInputs d sig pk with
  | err e => simp
  | ok =>
  cases h2 : SignatureService.validateTimestamp d now with
  | err e => simp
  | ok =>
  cases h3 : SignatureService.validateNonce d.nonce store rf with
  | err e => simp
  | ok =>
  cases h4 : SignatureService.validateDomain d.domain with
  | err e => simp
  | ok =>
  cases h5 : SignatureService.verifyCryptographicSignature env d sig pk with
  | err e => simp
  | ok =>
  cases h6 : SignatureService.performSecurityChecks env d with
  | err e => simp
  | ok =>
  cases hn : d.nonce with
  | none => simp
  | some v =>
    cases v with
    | vNum q => simp
    | vStr n =>
      cases wf with
      | true => simp [SignatureService.consumeNonce]
      | false =>
        refine ⟨by simp [SignatureService.consumeNonce], fun _ => ⟨n, rfl, ?_⟩⟩
        simpa [SignatureService.consumeNonce] using mem_cleanup_insert store n now

/-- Witness for C7: at a concrete Invalid verdict (a replayed nonce) the
store is unchanged, and at a concrete Valid verdict the nonce is in the
store. -/
theorem C7_store_atomicity_witness :
    (SignatureService.verifySignature testEnv recA "SIGB58" "PK" [("NONCEA", 0)] 300000 false false).2
      = [("NONCEA", 0)] ∧
    ∃ n, recA.nonce = some (.vStr n) ∧
      (n, (0 : ℤ)) ∈ (SignatureService.verifySignature testEnv recA "SIGB58" "PK" [] 0 false false).2 := by
  constructor
  · exact (C7_invalid_leaves_store_unchanged testEnv recA "SIGB58" "PK"
      [("NONCEA", 0)] 300000 false false).1 (by decide)
  · exact (C7_invalid_leaves_store_unchanged testEnv recA "SIGB58" "PK"
      [] 0 false false).2 (by decide)

/-- C3 (amended): the pipeline evaluates its checks in the order shape,
time window, nonce replay-check, domain, cryptographic signature,
business rules (the version gate lives inside the business rules), and
the first failing check determines the verdict; only when every check
passes is the nonce consumed, a failing consumption being wrapped into a
final Invalid verdict. -/
theorem C3_pipeline_order_amended (env : CryptoEnv) (d : SigData) (sig pk : String)
    (store : Store) (now : ℤ) (rf wf : Bool) :
    (SignatureService.verifySignature env d sig pk store now rf wf).1 =
      match firstFailure [
        SignatureService.validateInputs d sig pk,
        SignatureService.validateTimestamp d now,
        SignatureService.validateNonce d.nonce store rf,
        SignatureService.validateDomain d.domain,
        SignatureService.verifyCryptographicSignature env d sig pk,
        SignatureService.performSecurityChecks env d ] with
      | .err e => .err e
      | .ok =>
        if wf
        then .err "Signature verification failed: Failed to consume nonce - cannot prevent replay attacks"
        else .ok := by
  unfold SignatureService.verifySignature
  cases h1 : SignatureService.validateInputs d sig pk with
  | err e => simp [firstFailure]
  | ok =>
  cases h2 : SignatureService.validateTimestamp d now with
  | err e => simp [firstFailure]
  | ok =>
  cases h3 : SignatureService.validateNonce d.nonce store rf with
  | err e => simp [firstFailure]
  | ok =>
  cases h4 : SignatureService.validateDomain d.domain with
  | err e => simp [firstFailure]
  | ok =>
  cases h5 : SignatureService.verifyCryptographicSignature env d sig pk with
  | err e => simp [firstFailure]
  | ok =>
  cases h6 : SignatureService.performSecurityChecks env d with
  | err e => simp [firstFailure]
  | ok =>
  cases hn : d.nonce with
  | none => rw [hn] at h3; simp [SignatureService.validateNonce] at h3
  | some v =>
    cases v with
    | vNum q => rw [hn] at h3; simp [SignatureService.validateNonce] at h3
    | vStr n => cases wf <;> simp [firstFailure, SignatureService.consumeNonce]

set_option maxRecDepth 100000 in
/-- Counterexample to C3 as stated: on a record with an untrusted domain
and an already-consumed nonce the implementation answers with the
replayed-nonce failure, whereas the claimed order (domain before the
nonce claim, first failure wins) would produce the domain failure — so
the domain check is not evaluated before the nonce check. -/
theorem C3_order_mismatch_counterexample :
    (SignatureService.verifySignature testEnv
        { recA with domain := some (.vStr "evil.example") } "SIGB58" "PK"
        [("NONCEA", 0)] 300000 false false).1
      = .err "Nonce has already been used (replay attack detected)" ∧
    claimOrderVerdict testEnv { recA with domain := some (.vStr "evil.example") }
        "SIGB58" "PK" [("NONCEA", 0)] 300000 false
      = .err "Unsupported domain: evil.example" ∧
    (SignatureService.verifySignature testEnv
        { recA with domain := some (.vStr "evil.example") } "SIGB58" "PK"
        [("NONCEA", 0)] 300000 false false).1
      ≠ claimOrderVerdict testEnv { recA with domain := some (.vStr "evil.example") }
          "SIGB58" "PK" [("NONCEA", 0)] 300000 false := by
  refine ⟨by decide, by decide, by decide⟩

/-- Witness for C3 (amended): the characterization applied at a concrete
input where the time-window check is the first failure. -/
theorem C3_pipeline_order_witness :
    (SignatureService.verifySignature testEnv recA "SIGB58" "PK" [] 86700001 false false).1 =
      match firstFailure [
        SignatureService.validateInputs recA "SIGB58" "PK",
        SignatureService.validateTimestamp recA 86700001,
        SignatureService.validateNonce recA.nonce [] false,
        SignatureService.validateDomain recA.domain,
        SignatureService.verifyCryptographicSignature testEnv recA "SIGB58" "PK",
        SignatureService.performSecurityChecks testEnv recA ] with
      | .err e => .err e
      | .ok => if false
               then .err "Signature verification failed: Failed to consume nonce - cannot prevent replay attacks"
               else .ok :=
  C3_pipeline_order_amended testEnv recA "SIGB58" "PK" [] 86700001 false false

/-- Inversion of a Valid verdict: the early checks passed, and the output
store is the input store with the record's nonce recorded at the
verification time (after deduplication and cleanup). -/
theorem verify_ok_parts (env : CryptoEnv) (d : SigData) (sig pk : String)
    (store st : Store) (now : ℤ) (rf wf : Bool)
    (h : SignatureService.verifySignature env d sig pk store now rf wf = (.ok, st)) :
    SignatureService.validateInputs d sig pk = .ok ∧
    SignatureService.validateNonce d.nonce store rf = .ok ∧
    ∃ n, d.nonce = some (.vStr n) ∧
      st = SignatureService.cleanupNonceCache
        ((n, now) :: store.filter (fun e => !(e.1 == n))) now := by
  unfold SignatureService.verifySignature at h
  cases h1 : SignatureService.validateInputs d sig pk with
  | err e => rw [h1] at h; simp at h
  | ok =>
  rw [h1] at h
  simp only [] at h
  cases h2 : SignatureService.validateTimestamp d now with
  | err e => rw [h2] at h; simp at h
  | ok =>
  rw [h2] at h
  simp only [] at h
  cases h3 : SignatureService.validateNonce d.nonce store rf with
  | err e => rw [h3] at h; simp at h
  | ok =>
  rw [h3] at h
  simp only [] at h
  cases h4 : SignatureService.validateDomain d.domain with
  | err e => rw [h4] at h; simp at h
  | ok =>
  rw [h4] at h
  simp only [] at h
  cases h5 : SignatureService.verifyCryptographicSignature env d sig pk with
  | err e => rw [h5] at h; simp at h
  | ok =>
  rw [h5] at h
  simp only [] at h
  cases h6 : SignatureService.performSecurityChecks env d with
  | err e => rw [h6] at h; simp at h
  | ok =>
  rw [h6] at h
  simp only [] at h
  cases hn : d.nonce with
  | none => rw [hn] at h; simp at h
  | some v =>
    cases v with
    | vNum q => rw [hn] at h; simp at h
    | vStr n =>
      rw [hn] at h
      cases wf with
      | true => simp [SignatureService.consumeNonce] at h
      | false =>
        simp [SignatureService.consumeNonce] at h
        exact ⟨rfl, rfl, n, rfl, h.symm⟩

/-- Any single verify call either leaves the store unchanged or replaces
it by the input store with the call's nonce recorded at the call time. -/
theorem verify_store_cases (env : CryptoEnv) (d : SigData) (sig pk : String)
    (store : Store) (now : ℤ) (rf wf : Bool) :
    (SignatureService.verifySignature env d sig pk store now rf wf).2 = store ∨
    ∃ m, (SignatureService.verifySignature env d sig pk store now rf wf).2
      = SignatureService.cleanupNonceCache
          ((m, now) :: store.filter (fun e => !(e.1 == m))) now := by
  unfold SignatureService.verifySignature
  cases h1 : SignatureService.validateInputs d sig pk with
  | err e => exact Or.inl rfl
  | ok =>
  cases h2 : SignatureService.validateTimestamp d now with
  | err e => exact Or.inl rfl
  | ok =>
  cases h3 : SignatureService.validateNonce d.nonce store rf with
  | err e => exact Or.inl rfl
  | ok =>
  cases h4 : SignatureService.validateDomain d.domain with
  | err e => exact Or.inl rfl
  | ok =>
  cases h5 : SignatureService.verifyCryptographicSignature env d sig pk with
  | err e => exact Or.inl rfl
  | ok =>
  cases h6 : SignatureService.performSecurityChecks env d with
  | err e => exact Or.inl rfl
  | ok =>
  cases hn : d.nonce with
  | none => exact Or.inl rfl
  | some v =>
    cases v with
    | vNum q => exact Or.inl rfl
    | vStr n =>
      cases wf with
      | true => exact Or.inl rfl
      | false => exact Or.inr ⟨n, by simp [SignatureService.consumeNonce]⟩

/-- A nonce entry known to the store survives one verify call made within
24 hours of the window start: the call either leaves the store alone or
inserts its own nonce and cleans up only entries older than 24 hours. -/
theorem entry_survives (store : Store) (n m : String) (t now t0 : ℤ)
    (hmem : (n, t) ∈ store) (ht0 : t0 ≤ t)
    (hnow1 : t0 ≤ now) (hnow2 : now ≤ t0 + 86400000) :
    ∃ t2, (n, t2) ∈ SignatureService.cleanupNonceCache
        ((m, now) :: store.filter (fun e => !(e.1 == m))) now ∧ t0 ≤ t2 := by
  by_cases hmn : n = m
  · subst hmn
    exact ⟨now, mem_cleanup_insert store n now, hnow1⟩
  · refine ⟨t, ?_, ht0⟩
    simp only [SignatureService.cleanupNonceCache, List.mem_filter, List.mem_cons]
    refine ⟨Or.inr ?_, decide_eq_true (by omega : now - t ≤ 86400000)⟩
    exact ⟨hmem, by simp [hmn]⟩

/-- A nonce recorded no earlier than `t0` stays in the store across any
sequence of verify calls whose times lie within 24 hours of `t0`. -/
theorem runCalls_preserves (env : CryptoEnv) (calls : List VerifyCall) :
    ∀ (store : Store) (n : String) (t0 : ℤ),
      (∀ c ∈ calls, t0 ≤ c.now ∧ c.now ≤ t0 + 86400000) →
      (∃ t, (n, t) ∈ store ∧ t0 ≤ t) →
      ∃ t, (n, t) ∈ (runCalls env calls store).2 ∧ t0 ≤ t := by
  induction calls with
  | nil => intro store n t0 _ h; exact h
  | cons c cs ih =>
    intro store n t0 hc hinv
    obtain ⟨t, hmem, ht0⟩ := hinv
    have hcnow := hc c (List.mem_cons_self _ _)
    have hstep : (runCalls env (c :: cs) store).2
        = (runCalls env cs (SignatureService.verifySignature env c.data c.signature
            c.publicKey store c.now c.readFails c.writeFails).2).2 := rfl
    rw [hstep]
    apply ih _ n t0 (fun x hx => hc x (List.mem_cons_of_mem _ hx))
    rcases verify_store_cases env c.data c.signature c.publicKey store c.now
        c.readFails c.writeFails with hsame | ⟨m, hins⟩
    · rw [hsame]; exact ⟨t, hmem, ht0⟩
    · rw [hins]; exact entry_survives store n m t c.now t0 hmem ht0 hcnow.1 hcnow.2

/-- A nonce value that passed the nonce check is a non-empty base64url
string. -/
theorem validateNonce_ok_props (s : String) (store : Store) (rf : Bool)
    (h : SignatureService.validateNonce (some (.vStr s)) store rf = .ok) :
    (s == "") = false ∧ s.data.all SignatureService.isB64UrlChar = true := by
  unfold SignatureService.validateNonce at h
  simp only [] at h
  split_ifs at h with a b c <;> simp_all

/-- C1 (amended): a successfully verified record's nonce blocks every
replay of the identical `(record, signature, publicKey)` triple made
within the nonce's 24-hour retention — across any sequence of intervening
verify calls in that window the verdict is never Valid again, and it is
exactly the replayed-nonce failure whenever the replay still passes the
time-window check.  (As stated, without the retention bound, the claim
fails: the cleanup evicts 24-hour-old nonces while a future-skewed record
can still be inside its validity window — see the counterexample.) -/
theorem C1_single_use_within_ttl (env : CryptoEnv) (d : SigData) (sig pk : String)
    (store0 store1 : Store) (now0 now1 : ℤ) (rf0 wf0 wfR : Bool) (calls : List VerifyCall)
    (h1 : SignatureService.verifySignature env d sig pk store0 now0 rf0 wf0 = (.ok, store1))
    (hcalls : ∀ c ∈ calls, now0 ≤ c.now ∧ c.now ≤ now0 + 86400000)
    (_hnow1 : now0 ≤ now1) (_hnow2 : now1 ≤ now0 + 86400000) :
    (SignatureService.verifySignature env d sig pk
        (runCalls env calls store1).2 now1 false wfR).1 ≠ .ok ∧
    (SignatureService.validateTimestamp d now1 = .ok →
      (SignatureService.verifySignature env d sig pk
          (runCalls env calls store1).2 now1 false wfR).1
        = .err "Nonce has already been used (replay attack detected)") := by
  obtain ⟨hI, hN, n, hn, hst⟩ :=
    verify_ok_parts env d sig pk store0 store1 now0 rf0 wf0 h1
  have hmem1 : (n, now0) ∈ store1 := by
    rw [hst]; exact mem_cleanup_insert store0 n now0
  obtain ⟨t, hmemK, ht0⟩ :=
    runCalls_preserves env calls store1 n now0 hcalls ⟨now0, hmem1, le_refl now0⟩
  have hfmt := validateNonce_ok_props n store0 rf0 (hn ▸ hN)
  have hNK : SignatureService.validateNonce d.nonce (runCalls env calls store1).2 false
      = .err "Nonce has already been used (replay attack detected)" := by
    rw [hn]
    unfold SignatureService.validateNonce SignatureService.isNonceUsed
    have hused : ((runCalls env calls store1).2.any (fun e => e.1 == n)) = true :=
      List.any_eq_true.mpr ⟨(n, t), hmemK, by simp⟩
    simp [hfmt.1, hfmt.2, hused]
  constructor
  · intro hok
    have hpair : SignatureService.verifySignature env d sig pk
        (runCalls env calls store1).2 now1 false wfR
        = (.ok, (SignatureService.verifySignature env d sig pk
            (runCalls env calls store1).2 now1 false wfR).2) := by
      rw [← hok]
    obtain ⟨_, hN2, _⟩ := verify_ok_parts env d sig pk
      (runCalls env calls store1).2 _ now1 false wfR hpair
    rw [hNK] at hN2
    exact VResult.noConfusion hN2
  · intro hT
    unfold SignatureService.verifySignature
    simp only [hI, hT, hNK]

set_option maxRecDepth 100000 in
/-- Witness for C1 (amended): the fixture record verified at time 0 and
replayed at time 1000 with no intervening calls is rejected with the
replayed-nonce error. -/
theorem C1_single_use_witness :
    (SignatureService.verifySignature testEnv recA "SIGB58" "PK"
        (runCalls testEnv [] [("NONCEA", 0)]).2 1000 false false).1 ≠ .ok ∧
    (SignatureService.verifySignature testEnv recA "SIGB58" "PK"
        (runCalls testEnv [] [("NONCEA", 0)]).2 1000 false false).1
      = .err "Nonce has already been used (replay attack detected)" := by
  have h := C1_single_use_within_ttl testEnv recA "SIGB58" "PK" [] [("NONCEA", 0)]
    0 1000 false false false [] (by decide) (by simp) (by norm_num) (by norm_num)
  exact ⟨h.1, h.2 (by decide)⟩

set_option maxRecDepth 1000000 in
/-- Counterexample to C1 as stated: a sequence of three verify calls in
which the first and the third carry the identical
`(record, signature, publicKey)` triple and both return Valid — the
intervening successful call's cleanup evicts the 24-hour-old nonce while
the replayed record, created with the maximal 5-minute future clock skew
and the maximal 24-hour window, is still unexpired.  Valid is returned
twice for the same nonce, and the third call is a subsequent identical
call that does not return the replayed-nonce failure. -/
theorem C1_replay_after_ttl_counterexample :
    callA2.data = callA1.data ∧ callA2.signature = callA1.signature ∧
    callA2.publicKey = callA1.publicKey ∧
    (runCalls testEnv [callA1, callB, callA2] []).1 = [.ok, .ok, .ok] := by
  refine ⟨rfl, rfl, rfl, by decide⟩

theorem runProc_eq_verify (env : CryptoEnv) (c : VerifyCall) (store : Store) :
    runProc env c store = SignatureService.verifySignature env c.data c.signature
      c.publicKey store c.now c.readFails c.writeFails := by
  unfold runProc procStep SignatureService.verifySignature
  cases h1 : SignatureService.validateInputs c.data c.signature c.publicKey with
  | err e => simp
  | ok =>
  cases h2 : SignatureService.validateTimestamp c.data c.now with
  | err e => simp
  | ok =>
  cases hn : c.data.nonce with
  | none => simp [SignatureService.validateNonce]
  | some v =>
    cases v with
    | vNum q => simp [SignatureService.validateNonce]
    | vStr n =>
      by_cases hs : (n == "") = true
      · simp [SignatureService.validateNonce, hs]
      · by_cases hb : (!(n.data.all SignatureService.isB64UrlChar)) = true
        · simp [SignatureService.validateNonce, hs, hb]
        · have hfmt0 : SignatureService.isNonceUsed [] n false = false := rfl
          cases hu : SignatureService.isNonceUsed store n c.readFails with
          | true => simp [SignatureService.validateNonce, hs, hb, hfmt0, hu]
          | false =>
            cases h4 : SignatureService.validateDomain c.data.domain with
            | err e => simp [SignatureService.validateNonce, hs, hb, hfmt0, hu, h4]
            | ok =>
            cases h5 : SignatureService.verifyCryptographicSignature env c.data c.signature c.publicKey with
            | err e => simp [SignatureService.validateNonce, hs, hb, hfmt0, hu, h4, h5]
            | ok =>
            cases h6 : SignatureService.performSecurityChecks env c.data with
            | err e => simp [SignatureService.validateNonce, hs, hb, hfmt0, hu, h4, h5, h6]
            | ok =>
            cases hw : c.writeFails with
            | true => simp [SignatureService.validateNonce, hs, hb, hfmt0, hu, h4, h5, h6, SignatureService.consumeNonce, hw]
            | false => simp [SignatureService.validateNonce, hs, hb, hfmt0, hu, h4, h5, h6, SignatureService.consumeNonce, hw]

theorem procStep_start_cases (env : CryptoEnv) (c : VerifyCall) (store : Store) :
    (∃ r, procStep env c .start store = (.finished r, store)) ∨
    (∃ u, procStep env c .start store = (.readDone u, store)) := by
  unfold procStep
  repeat' split
  all_goals first
    | exact Or.inl ⟨_, rfl⟩
    | exact Or.inr ⟨_, rfl⟩
    | simp_all

theorem procStep_readDone_finished (env : CryptoEnv) (c : VerifyCall) (u : Bool) (store : Store) :
    ∃ r st2, procStep env c (.readDone u) store = (.finished r, st2) := by
  unfold procStep
  repeat' split
  all_goals first
    | exact ⟨_, _, rfl⟩
    | simp_all

theorem two_p1_steps (env : CryptoEnv) (c1 c2 : VerifyCall) (store0 : Store) (p2 : ProcState) :
    twoStep env c1 c2 (twoStep env c1 c2 ⟨store0, .start, p2⟩ true) true
      = ⟨(runProc env c1 store0).2, .finished (runProc env c1 store0).1, p2⟩ := by
  rcases procStep_start_cases env c1 store0 with ⟨r, hr⟩ | ⟨u, hu⟩
  · have hrp : runProc env c1 store0 = (r, store0) := by unfold runProc; rw [hr]
    have h1 : twoStep env c1 c2 ⟨store0, .start, p2⟩ true = ⟨store0, .finished r, p2⟩ := by
      simp [twoStep, hr]
    rw [hrp, h1]
    simp [twoStep, procStep]
  · obtain ⟨r2, st2, h2⟩ := procStep_readDone_finished env c1 u store0
    have hrp : runProc env c1 store0 = (r2, st2) := by unfold runProc; rw [hu]; simp [h2]
    have h1 : twoStep env c1 c2 ⟨store0, .start, p2⟩ true = ⟨store0, .readDone u, p2⟩ := by
      simp [twoStep, hu]
    rw [hrp, h1]
    simp [twoStep, h2]

theorem two_p2_steps (env : CryptoEnv) (c1 c2 : VerifyCall) (store0 : Store) (p1 : ProcState) :
    twoStep env c1 c2 (twoStep env c1 c2 ⟨store0, p1, .start⟩ false) false
      = ⟨(runProc env c2 store0).2, p1, .finished (runProc env c2 store0).1⟩ := by
  rcases procStep_start_cases env c2 store0 with ⟨r, hr⟩ | ⟨u, hu⟩
  · have hrp : runProc env c2 store0 = (r, store0) := by unfold runProc; rw [hr]
    have h1 : twoStep env c1 c2 ⟨store0, p1, .start⟩ false = ⟨store0, p1, .finished r⟩ := by
      simp [twoStep, hr]
    rw [hrp, h1]
    simp [twoStep, procStep]
  · obtain ⟨r2, st2, h2⟩ := procStep_readDone_finished env c2 u store0
    have hrp : runProc env c2 store0 = (r2, st2) := by unfold runProc; rw [hu]; simp [h2]
    have h1 : twoStep env c1 c2 ⟨store0, p1, .start⟩ false = ⟨store0, p1, .readDone u⟩ := by
      simp [twoStep, hu]
    rw [hrp, h1]
    simp [twoStep, h2]

/-- A nonce that passed the nonce check was reported unused by the store
read. -/
theorem validateNonce_ok_unused (s : String) (store : Store) (rf : Bool)
    (h : SignatureService.validateNonce (some (.vStr s)) store rf = .ok) :
    SignatureService.isNonceUsed store s rf = false := by
  unfold SignatureService.validateNonce at h
  simp only [] at h
  split_ifs at h with a b c <;> simp_all

/-- C2 (amended): the nonce claim is a separate existence check followed
by a write, not an atomic conditional insert, so atomicity holds only
for serialized executions: when two verifications of the same nonce run
one after the other, a Valid first verdict forces the second to fail —
with exactly the replayed-nonce error whenever the second call's shape
and time checks pass.  (For genuinely concurrent schedules the claim
fails: see the counterexample, where both calls return Valid.) -/
theorem C2_serialized_same_nonce_single_valid (env : CryptoEnv) (c1 c2 : VerifyCall)
    (store0 : Store) (n : String)
    (hn1 : c1.data.nonce = some (.vStr n)) (hn2 : c2.data.nonce = some (.vStr n))
    (hrf2 : c2.readFails = false)
    (hp1 : (runSchedule env c1 c2 [true, true, false, false]
        ⟨store0, .start, .start⟩).p1 = .finished .ok) :
    (runSchedule env c1 c2 [true, true, false, false]
        ⟨store0, .start, .start⟩).p2 ≠ .finished .ok ∧
    (SignatureService.validateInputs c2.data c2.signature c2.publicKey = .ok →
      SignatureService.validateTimestamp c2.data c2.now = .ok →
      (runSchedule env c1 c2 [true, true, false, false]
          ⟨store0, .start, .start⟩).p2
        = .finished (.err "Nonce has already been used (replay attack detected)")) := by
  have hsched : runSchedule env c1 c2 [true, true, false, false] ⟨store0, .start, .start⟩
      = twoStep env c1 c2 (twoStep env c1 c2
          (twoStep env c1 c2 (twoStep env c1 c2 ⟨store0, .start, .start⟩ true) true)
          false) false := rfl
  rw [hsched, two_p1_steps, two_p2_steps] at hp1
  rw [hsched, two_p1_steps, two_p2_steps]
  have hr1 : (runProc env c1 store0).1 = .ok := by simpa using hp1
  have hv1 : SignatureService.verifySignature env c1.data c1.signature c1.publicKey
      store0 c1.now c1.readFails c1.writeFails = (.ok, (runProc env c1 store0).2) := by
    rw [← runProc_eq_verify]
    rw [show runProc env c1 store0
        = ((runProc env c1 store0).1, (runProc env c1 store0).2) from rfl, hr1]
  obtain ⟨_, _, m, hm, hst⟩ := verify_ok_parts env c1.data c1.signature c1.publicKey
    store0 _ c1.now c1.readFails c1.writeFails hv1
  have hmn : m = n := by
    rw [hn1] at hm
    simp only [Option.some.injEq, JSVal.vStr.injEq] at hm
    exact hm.symm
  subst hmn
  have hmem : (m, c1.now) ∈ (runProc env c1 store0).2 := by
    rw [hst]; exact mem_cleanup_insert store0 m c1.now
  have hused : SignatureService.isNonceUsed (runProc env c1 store0).2 m false = true := by
    unfold SignatureService.isNonceUsed
    simp only [if_false, Bool.false_eq_true]
    exact List.any_eq_true.mpr ⟨(m, c1.now), hmem, by simp⟩
  constructor
  · intro hok
    have hr2 : (runProc env c2 (runProc env c1 store0).2).1 = .ok := by simpa using hok
    have hv2 : SignatureService.verifySignature env c2.data c2.signature c2.publicKey
        (runProc env c1 store0).2 c2.now c2.readFails c2.writeFails
        = (.ok, (runProc env c2 (runProc env c1 store0).2).2) := by
      rw [← runProc_eq_verify]
      rw [show runProc env c2 (runProc env c1 store0).2
          = ((runProc env c2 (runProc env c1 store0).2).1,
             (runProc env c2 (runProc env c1 store0).2).2) from rfl, hr2]
    obtain ⟨_, hN2, _⟩ := verify_ok_parts env c2.data c2.signature c2.publicKey
      (runProc env c1 store0).2 _ c2.now c2.readFails c2.writeFails hv2
    rw [hn2] at hN2
    have := validateNonce_ok_unused m (runProc env c1 store0).2 c2.readFails hN2
    rw [hrf2, hused] at this
    exact Bool.noConfusion this
  · intro hI2 hT2
    have hvn1 : SignatureService.validateNonce c1.data.nonce store0 c1.readFails = .ok :=
      (verify_ok_parts env c1.data c1.signature c1.publicKey store0 _ c1.now
        c1.readFails c1.writeFails hv1).2.1
    rw [hn1] at hvn1
    have hfmt := validateNonce_ok_props m store0 c1.readFails hvn1
    have hNK : SignatureService.validateNonce c2.data.nonce (runProc env c1 store0).2 c2.readFails
        = .err "Nonce has already been used (replay attack detected)" := by
      rw [hn2, hrf2]
      unfold SignatureService.validateNonce
      simp [hfmt.1, hfmt.2, hused]
    have : (SignatureService.verifySignature env c2.data c2.signature c2.publicKey
        (runProc env c1 store0).2 c2.now c2.readFails c2.writeFails).1
        = .err "Nonce has already been used (replay attack detected)" := by
      unfold SignatureService.verifySignature
      simp only [hI2, hT2, hNK]
    rw [← runProc_eq_verify] at this
    simp [this]

set_option maxRecDepth 100000 in
/-- Witness for C2 (amended): two serialized verifications of the same
record — the second one's shape and time checks passing — produce one
Valid and one replayed-nonce Invalid. -/
theorem C2_serialized_witness :
    (runSchedule testEnv callA1 callA1 [true, true, false, false]
        ⟨[], .start, .start⟩).p2 ≠ .finished .ok ∧
    (runSchedule testEnv callA1 callA1 [true, true, false, false]
        ⟨[], .start, .start⟩).p2
      = .finished (.err "Nonce has already been used (replay attack detected)") := by
  have h := C2_serialized_same_nonce_single_valid testEnv callA1 callA1 [] "NONCEA"
    rfl rfl rfl (by decide)
  exact ⟨h.1, h.2 (by decide) (by decide)⟩

set_option maxRecDepth 100000 in
/-- Counterexample to C2 as stated: with the check-then-write nonce claim
there is an interleaving — both store reads before either store write —
in which two concurrent verifications of the identical nonce BOTH return
Valid, instead of exactly one Valid and one replayed-nonce Invalid. -/
theorem C2_both_valid_counterexample :
    callA1.data.nonce = some (.vStr "NONCEA") ∧
    (runSchedule testEnv callA1 callA1 [true, false, true, false]
        ⟨[], .start, .start⟩).p1 = .finished .ok ∧
    (runSchedule testEnv callA1 callA1 [true, false, true, false]
        ⟨[], .start, .start⟩).p2 = .finished .ok := by
  refine ⟨rfl, by decide, by decide⟩
